import Mathlib

/-!
Shallow embedding of the `translators` repository (two Python modules:
`crossref_translator.py` and `doi_translator.py`) and proofs about the
claims of its specification.

Modelling conventions:
* JSON values are the inductive type `Json`; JSON numbers are modelled as
  integers (the payload fields the code touches — years, statuses,
  timestamps — are integral; no floating point is involved in any claim).
* Python dicts are association lists with the keys assumed unique (Python
  dict literals and JSON objects cannot carry duplicate keys); lookups take
  the first binding, insertion of an existing key overwrites in place and a
  new key is appended, matching Python 3.7+ insertion-order semantics.
* Python exceptions are the `PyExc` type; fallible operations return
  `Except PyExc`.  Built-in exceptions that the code never formats
  (TypeError, AttributeError, IndexError, KeyError) are modelled without
  their message text.
* The HTTP transport is a parameter: one attempt either yields a parsed
  response (status, headers, JSON body) or raises `aiohttp.ClientError`
  with a message.  Response bodies are assumed JSON-decodable (the code's
  `response.json()` is modelled as already-parsed data).
* `datetime.fromtimestamp` is modelled as the identity on the integer
  timestamp, and formatting a datetime renders that integer; the
  platform-dependent overflow of `fromtimestamp` on astronomically large
  timestamps is outside the model.
* Character classes `\d` and `\w` of Python's `re` module are modelled on
  their ASCII fragment (`0-9`, `A-Za-z0-9_`); the claims do not involve
  non-ASCII input.
-/

namespace Translators

/-- JSON values (numbers restricted to integers, see module conventions). -/
inductive Json where
  | null : Json
  | bool (b : Bool) : Json
  | num (n : Int) : Json
  | str (s : String) : Json
  | arr (elems : List Json) : Json
  | obj (fields : List (String × Json)) : Json

/-- Python exceptions raised by the embedded code. -/
inductive PyExc where
  | valueError (msg : String) : PyExc
  | crossRefAPIError (msg : String) : PyExc
  | crDOINotFoundError (msg : String) : PyExc
  | crRateLimitError (msg : String) : PyExc
  | doiResolutionError (msg : String) : PyExc
  | doiNotFoundError (msg : String) : PyExc
  | doiRateLimitError (msg : String) : PyExc
  | typeError : PyExc
  | attributeError : PyExc
  | indexError : PyExc
  | keyError : PyExc
deriving DecidableEq

/-- First binding of a key in an association list (Python `d[k]` / `k in d`). -/
def dictGet (fs : List (String × Json)) (k : String) : Option Json :=
  match fs with
  | [] => none
  | (k', v) :: rest => if k' = k then some v else dictGet rest k

/-- Python `d.get(k, default)`. -/
def dictGetD (fs : List (String × Json)) (k : String) (d : Json) : Json :=
  match dictGet fs k with
  | some v => v
  | none => d

/-- Python `k in d` for a dict. -/
def dictContains (fs : List (String × Json)) (k : String) : Bool :=
  (dictGet fs k).isSome

/-- Python `d[k] = v`: overwrite in place, or append a new key. -/
def dictSet (fs : List (String × Json)) (k : String) (v : Json) :
    List (String × Json) :=
  match fs with
  | [] => [(k, v)]
  | (k', v') :: rest =>
      if k' = k then (k', v) :: rest else (k', v') :: dictSet rest k v

/-- Python truthiness of a JSON value. -/
def truthy : Json → Bool
  | .null => false
  | .bool b => b
  | .num n => decide (n ≠ 0)
  | .str s => decide (s ≠ "")
  | .arr xs => !xs.isEmpty
  | .obj fs => !fs.isEmpty

/-- Python `len(v)`: defined for lists, strings and dicts, TypeError otherwise. -/
def pyLen : Json → Except PyExc Nat
  | .arr xs => .ok xs.length
  | .str s => .ok s.length
  | .obj fs => .ok fs.length
  | _ => .error .typeError

/-- Python `v[0]`: first element of a list (IndexError when empty), first
character of a string as a one-character string, KeyError on a dict (JSON
object keys are strings, so the integer key 0 is never present), TypeError
otherwise. -/
def index0 : Json → Except PyExc Json
  | .arr [] => .error .indexError
  | .arr (x :: _) => .ok x
  | .str s =>
      match s.toList with
      | [] => .error .indexError
      | c :: _ => .ok (.str (String.mk [c]))
  | .obj _ => .error .keyError
  | _ => .error .typeError

/-- Python iteration `for x in v`: list elements, string characters as
one-character strings, dict keys; TypeError otherwise. -/
def iterElems : Json → Except PyExc (List Json)
  | .arr xs => .ok xs
  | .str s => .ok (s.toList.map (fun c => .str (String.mk [c])))
  | .obj fs => .ok (fs.map (fun p => .str p.1))
  | _ => .error .typeError

/-- Python subscription `v[k]` with a string key. -/
def pyGetItem (j : Json) (k : String) : Except PyExc Json :=
  match j with
  | .obj fs =>
      match dictGet fs k with
      | some v => .ok v
      | none => .error .keyError
  | _ => .error .typeError

/-- Python subscription assignment `v[k] = x` with a string key. -/
def pySetItem (j : Json) (k : String) (x : Json) : Except PyExc Json :=
  match j with
  | .obj fs => .ok (.obj (dictSet fs k x))
  | _ => .error .typeError

/-- Substring test on character lists (Python `needle in haystack` for
strings). -/
def listHasSub (needle : List Char) (hay : List Char) : Bool :=
  match hay with
  | [] => needle.isEmpty
  | _ :: rest => needle.isPrefixOf hay || listHasSub needle rest

/-- Python membership test `k in v` for a string `k`: key test on dicts,
element test on lists, substring test on strings, TypeError otherwise. -/
def pyContains (j : Json) (k : String) : Except PyExc Bool :=
  match j with
  | .obj fs => .ok (dictContains fs k)
  | .arr xs => .ok (xs.any fun x => match x with | .str s => decide (s = k) | _ => false)
  | .str s => .ok (listHasSub k.toList s.toList)
  | _ => .error .typeError

/-! ## Python `int(...)` on strings

`int` strips surrounding whitespace, accepts an optional sign, and accepts
single underscores between digits (`int("1_0") == 10`). -/

/-- Numeric value of a digit list. -/
def digitsVal (ds : List Char) : Int :=
  ds.foldl (fun a c => a * 10 + (c.toNat - '0'.toNat : Int)) 0

/-- Tail of a digit group: digits, possibly with single underscores between
them.  Returns the digits with underscores removed, or `none` when malformed. -/
def digitsTail : List Char → Option (List Char)
  | [] => some []
  | '_' :: c :: rest =>
      if c.isDigit then (digitsTail rest).map (fun ds => c :: ds) else none
  | c :: rest =>
      if c.isDigit then (digitsTail rest).map (fun ds => c :: ds) else none

/-- A nonempty digit group per Python's `int` grammar. -/
def pyIntDigits : List Char → Option (List Char)
  | [] => none
  | c :: rest =>
      if c.isDigit then (digitsTail rest).map (fun ds => c :: ds) else none

/-- ASCII fragment of the whitespace `str.strip` / `int` ignore around a
numeric literal. -/
def isPySpace (c : Char) : Bool :=
  c = ' ' || c = '\t' || c = '\n' || c = '\r' || c = '\x0B' || c = '\x0C'

/-- Strip surrounding whitespace from a character list. -/
def stripSpace (cs : List Char) : List Char :=
  ((cs.dropWhile isPySpace).reverse.dropWhile isPySpace).reverse

/-- Python `int(s)` for a string: `some n` on success, `none` models the
`ValueError` the call raises on a non-numeric string. -/
def parsePyInt (s : String) : Option Int :=
  match stripSpace s.toList with
  | '+' :: rest => (pyIntDigits rest).map digitsVal
  | '-' :: rest => (pyIntDigits rest).map (fun ds => -digitsVal ds)
  | cs => (pyIntDigits cs).map digitsVal

/-! ## Rate-limit-state tracker (`_update_rate_limits`, both modules) -/

/-- The two mutable fields `_rate_limit_remaining` and `_rate_limit_reset`
of a translator instance.  The reset time is kept as the integer Unix
timestamp handed to `datetime.fromtimestamp`. -/
structure RateState where
  remaining : Option Int
  resetAt : Option Int
deriving DecidableEq

/-- First value of a header in a header list. -/
def headerGet (hs : List (String × String)) (k : String) : Option String :=
  match hs with
  | [] => none
  | (k', v) :: rest => if k' = k then some v else headerGet rest k

/-- `_update_rate_limits` (identical in both modules):
`int(response.headers.get('X-Rate-Limit-Remaining', 0))` then
`datetime.fromtimestamp(int(response.headers.get('X-Rate-Limit-Reset', 0)))`,
with `except (ValueError, TypeError)` resetting both fields to `None`.
A missing header falls back to the integer default `0`, on which `int`
succeeds; only a present but non-numeric header raises and clears both
fields. -/
def update_rate_limits (hs : List (String × String)) : RateState :=
  match (match headerGet hs "X-Rate-Limit-Remaining" with
         | none => some (0 : Int)
         | some s => parsePyInt s) with
  | none => ⟨none, none⟩
  | some rem =>
      match (match headerGet hs "X-Rate-Limit-Reset" with
             | none => some (0 : Int)
             | some s => parsePyInt s) with
      | none => ⟨none, none⟩
      | some ts => ⟨some rem, some ts⟩

/-! ## DOI validator (`doi_translator.py`) -/

/-- ASCII fragment of Python's `\w`. -/
def isWordChar (c : Char) : Bool := c.isAlphanum || c = '_'

/-- The character class `[-._;()/:\w]` of `DOI_PATTERN`. -/
def isDOIBodyChar (c : Char) : Bool :=
  c = '-' || c = '.' || c = '_' || c = ';' || c = '(' || c = ')' ||
  c = '/' || c = ':' || isWordChar c

/-- `DOI_PATTERN.match`: the anchored regex `^10\.\d{4,}/[-._;()/:\w]+$`
under Python `re` semantics, where `$` also matches just before a single
newline at the end of the string. -/
def doiPatternMatch (cs : List Char) : Bool :=
  match cs with
  | '1' :: '0' :: '.' :: rest =>
      (decide (4 ≤ (rest.takeWhile Char.isDigit).length)) &&
      (match rest.dropWhile Char.isDigit with
       | '/' :: tail =>
           (decide (1 ≤ (tail.takeWhile isDOIBodyChar).length)) &&
           ((decide (tail.dropWhile isDOIBodyChar = [])) ||
            (decide (tail.dropWhile isDOIBodyChar = ['\n'])))
       | _ => false)
  | _ => false

/-- `validate_doi`: falsy (empty) input returns `False`, otherwise
`bool(DOI_PATTERN.match(doi))`. -/
def validate_doi (doi : String) : Bool :=
  if doi = "" then false else doiPatternMatch doi.toList

/-- Modelled from the spec: the DOI grammar `10\.\d{4,}/[-._;()/:\w]+`
exactly as written — prefix `10.`, at least four digits, `/`, one or more
characters of the restricted class, and nothing else.  This is the
specification-side definition used to compare `validate_doi` against the
spec's words. -/
def specDoiGrammar (cs : List Char) : Bool :=
  match cs with
  | '1' :: '0' :: '.' :: rest =>
      (decide (4 ≤ (rest.takeWhile Char.isDigit).length)) &&
      (match rest.dropWhile Char.isDigit with
       | '/' :: tail =>
           (decide (1 ≤ (tail.takeWhile isDOIBodyChar).length)) &&
           (decide (tail.dropWhile isDOIBodyChar = []))
       | _ => false)
  | _ => false

/-! ## CrossRef metadata normalization (`_normalize_metadata`) -/

/-- The helper `get_first(lst, default=None)` of `_normalize_metadata`:
`lst[0] if lst and len(lst) > 0 else default`.  The call sites pass only
`lst`, so the default is always `None` (`Json.null` here); it is made an
explicit argument. -/
def get_first (lst : Json) (dflt : Json) : Except PyExc Json :=
  if truthy lst then
    match pyLen lst with
    | .error e => .error e
    | .ok n => if 0 < n then index0 lst else .ok dflt
  else .ok dflt

/-- One entry of the author loop:
`{'firstName': author.get('given'), 'lastName': author.get('family')}`;
a non-dict entry raises AttributeError at `author.get`. -/
def authorEntry : Json → Except PyExc Json
  | .obj afs =>
      .ok (.obj [("firstName", dictGetD afs "given" .null),
                 ("lastName", dictGetD afs "family" .null)])
  | _ => .error .attributeError

/-- The author loop over an already-obtained element list. -/
def authorsLoop : List Json → Except PyExc (List Json)
  | [] => .ok []
  | a :: rest =>
      match authorEntry a with
      | .error e => .error e
      | .ok entry =>
          match authorsLoop rest with
          | .error e => .error e
          | .ok entries => .ok (entry :: entries)

/-- `for author in data.get('author', []): ...` -/
def extractAuthors (src : Json) : Except PyExc (List Json) :=
  match iterElems src with
  | .error e => .error e
  | .ok xs => authorsLoop xs

/-- The fixed priority list `date_fields` of `_normalize_metadata`. -/
def dateFields : List String := ["published-print", "published-online", "created"]

/-- Body of one iteration of the year loop for a present field `v`:
`date_parts = data[field].get('date-parts', [[None]])[0]` followed by
`if date_parts and date_parts[0]: year = date_parts[0]; break`.
Returns `some y` when the loop would set the year and break, `none` when it
would fall through to the next field. -/
def yearFromField (v : Json) : Except PyExc (Option Json) :=
  match v with
  | .obj vfs =>
      match index0 (dictGetD vfs "date-parts" (.arr [.arr [.null]])) with
      | .error e => .error e
      | .ok dp =>
          if truthy dp then
            match index0 dp with
            | .error e => .error e
            | .ok y => if truthy y then .ok (some y) else .ok none
          else .ok none
  | _ => .error .attributeError

/-- The year loop `for field in date_fields: if field in data: ...`. -/
def yearLoop (data : List (String × Json)) : List String → Except PyExc Json
  | [] => .ok .null
  | f :: rest =>
      match dictGet data f with
      | none => yearLoop data rest
      | some v =>
          match yearFromField v with
          | .error e => .error e
          | .ok (some y) => .ok y
          | .ok none => yearLoop data rest

/-- `_normalize_metadata` on a dict payload.  The components are evaluated
in Python's order: the dict literal evaluates `get_first` for `title`,
`container-title` and `ISSN` (the plain `.get` accesses cannot raise), then
the author loop runs, then the year loop. -/
def normalizeObj (data : List (String × Json)) : Except PyExc Json :=
  match get_first (dictGetD data "title" (.arr [])) .null with
  | .error e => .error e
  | .ok title =>
  match get_first (dictGetD data "container-title" (.arr [])) .null with
  | .error e => .error e
  | .ok journal =>
  match get_first (dictGetD data "ISSN" (.arr [])) .null with
  | .error e => .error e
  | .ok issn =>
  match extractAuthors (dictGetD data "author" (.arr [])) with
  | .error e => .error e
  | .ok authors =>
  match yearLoop data dateFields with
  | .error e => .error e
  | .ok year =>
      .ok (.obj [("title", title),
                 ("authors", .arr authors),
                 ("doi", dictGetD data "DOI" .null),
                 ("url", dictGetD data "URL" .null),
                 ("journal", journal),
                 ("issn", issn),
                 ("issue", dictGetD data "issue" .null),
                 ("volume", dictGetD data "volume" .null),
                 ("year", year),
                 ("publisher", dictGetD data "publisher" .null),
                 ("type", dictGetD data "type" .null),
                 ("language", dictGetD data "language" .null)])

/-- `_normalize_metadata`: a non-dict argument raises AttributeError at the
first `data.get`. -/
def normalize_metadata : Json → Except PyExc Json
  | .obj data => normalizeObj data
  | _ => .error .attributeError

/-! ## Transport model and call outcomes -/

/-- One HTTP attempt as seen by the code: either a parsed response or an
`aiohttp.ClientError` carrying its rendered message. -/
inductive AttemptResult where
  | resp (status : Nat) (headers : List (String × String)) (body : Json) : AttemptResult
  | clientError (msg : String) : AttemptResult

/-- What a call to `query_doi` / `resolve_doi` does besides its outcome:
the request URLs dispatched, in order, and the backoff delays slept, in
order (seconds, the argument of `asyncio.sleep`). -/
structure CallLog where
  requests : List String
  sleeps : List Nat
deriving DecidableEq

/-- Outcome of a resolve call: an explicit `return` of a value, the
implicit `None` return of a function body that falls through (possible in
`query_doi` when the attempt loop runs zero times), or a raised exception. -/
inductive CallOutcome where
  | ret (v : Json) : CallOutcome
  | retNone : CallOutcome
  | raised (e : PyExc) : CallOutcome

/-- Full result of a resolve call: outcome, final rate-limit tracker state,
and the observable request/sleep log. -/
structure RunResult where
  outcome : CallOutcome
  finalState : RateState
  log : CallLog

/-- Rendering of `self._rate_limit_reset or "unknown"` inside the 429
message: a tracked datetime is always truthy, so `"unknown"` appears
exactly when the field is `None`; a tracked value renders its timestamp. -/
def resetRepr : Option Int → String
  | none => "unknown"
  | some ts => toString ts

/-- The 429 message `f"Rate limit exceeded. Reset at {reset_time}"`
(identical in both modules). -/
def rateLimitMsg (resetAt : Option Int) : String :=
  "Rate limit exceeded. Reset at " ++ resetRepr resetAt

/-! ## CrossRef backend (`query_doi`) -/

/-- Constructor arguments of `CrossRefTranslator` that the model needs:
`mailto` and `max_retries` (the HTTP client is the transport parameter of
`query_doi`; the two rate-limit fields are the `RateState` argument). -/
structure CrossRefTranslator where
  mailto : Option String
  maxRetries : Int

/-- `f"{self.BASE_URL}/{doi}"`. -/
def crossrefUrl (doi : String) : String :=
  "https://api.crossref.org/works/" ++ doi

/-- `f'Bibli/1.0 (mailto:{self.mailto or "support@bibli.com"})'`. -/
def crossrefUserAgent (mailto : Option String) : String :=
  "Bibli/1.0 (mailto:" ++
    (match mailto with
     | some s => if s = "" then "support@bibli.com" else s
     | none => "support@bibli.com") ++ ")"

/-- The attempt loop `for attempt in range(self.max_retries)` of
`query_doi`.  `maxN` is `max_retries` as the length of the Python range
(`0` for a non-positive value); `fuel` counts the remaining iterations and
equals `maxN - attempt` whenever the loop is entered from `query_doi`. -/
def queryDoiLoop (doi : String) (t : Nat → AttemptResult) (maxN : Nat)
    (st : RateState) (attempt : Nat) (fuel : Nat) : RunResult :=
  match fuel with
  | 0 => ⟨.retNone, st, ⟨[], []⟩⟩
  | fuel' + 1 =>
      let url := crossrefUrl doi
      match t attempt with
      | .clientError msg =>
          if attempt = maxN - 1 then
            ⟨.raised (.crossRefAPIError ("Network error: " ++ msg)), st, ⟨[url], []⟩⟩
          else
            let r := queryDoiLoop doi t maxN st (attempt + 1) fuel'
            ⟨r.outcome, r.finalState,
             ⟨url :: r.log.requests, 2 ^ attempt :: r.log.sleeps⟩⟩
      | .resp status headers body =>
          let st' := update_rate_limits headers
          if status = 429 then
            ⟨.raised (.crRateLimitError (rateLimitMsg st'.resetAt)), st', ⟨[url], []⟩⟩
          else if status = 404 then
            ⟨.raised (.crDOINotFoundError ("DOI not found: " ++ doi)), st', ⟨[url], []⟩⟩
          else if status ≠ 200 then
            ⟨.raised (.crossRefAPIError ("CrossRef API error: " ++ toString status)),
             st', ⟨[url], []⟩⟩
          else
            match pyGetItem body "message" with
            | .error e => ⟨.raised e, st', ⟨[url], []⟩⟩
            | .ok msg =>
                match normalize_metadata msg with
                | .error e => ⟨.raised e, st', ⟨[url], []⟩⟩
                | .ok m => ⟨.ret m, st', ⟨[url], []⟩⟩

/-- `query_doi`: the empty-DOI guard, then the attempt loop.  `st` is the
instance's rate-limit tracker state at entry; the transport `t` gives the
result of each attempt. -/
def query_doi (c : CrossRefTranslator) (st : RateState) (doi : String)
    (t : Nat → AttemptResult) : RunResult :=
  if doi = "" then
    ⟨.raised (.valueError "DOI cannot be empty"), st, ⟨[], []⟩⟩
  else
    queryDoiLoop doi t c.maxRetries.toNat st 0 c.maxRetries.toNat

/-! ## DOI content-negotiation backend (`resolve_doi`) -/

/-- Modelled from the spec: the external collaborator `ProxyService`
(`..services.proxy_service`, not part of this repository's sources) is a
black-box URL transformer — `transform(url: string) -> string`, pure and
total over well-formed URLs, no network call. -/
structure ProxyService where
  transform : String → String

/-- Constructor state of `DOITranslator` the model needs: the optional
proxy service (the HTTP client is the transport parameter of
`resolve_doi`; the two rate-limit fields are the `RateState` argument). -/
structure DOITranslator where
  proxyService : Option ProxyService

/-- Application of the proxy transformer to a response-field value.
Modelled from the spec: the transformer is specified only on strings, so a
non-string value is modelled as a type error. -/
def transformValue (p : ProxyService) : Json → Except PyExc Json
  | .str s => .ok (.str (p.transform s))
  | _ => .error .typeError

/-- The proxy augmentation block of `resolve_doi`:
`if 'URL' in metadata: metadata['proxied_url'] = transform(metadata['URL'])`
then the same for `'link'` / `'proxied_link'`. -/
def addProxied (p : ProxyService) (metadata : Json) : Except PyExc Json :=
  match pyContains metadata "URL" with
  | .error e => .error e
  | .ok hasUrl =>
      match (if hasUrl then
               match pyGetItem metadata "URL" with
               | .error e => .error e
               | .ok u =>
                   match transformValue p u with
                   | .error e => .error e
                   | .ok pu => pySetItem metadata "proxied_url" pu
             else .ok metadata : Except PyExc Json) with
      | .error e => .error e
      | .ok m1 =>
          match pyContains m1 "link" with
          | .error e => .error e
          | .ok hasLink =>
              if hasLink then
                match pyGetItem m1 "link" with
                | .error e => .error e
                | .ok l =>
                    match transformValue p l with
                    | .error e => .error e
                    | .ok pl => pySetItem m1 "proxied_link" pl
              else .ok m1

/-- `resolve_doi`: validator guard, outbound URL (proxied when a proxy is
configured), a single request (there is no retry loop in this module), the
rate-limit update, status classification, and the proxy augmentation of
the returned record.  A transport failure is wrapped as
`DOIResolutionError` immediately. -/
def resolve_doi (d : DOITranslator) (st : RateState) (doi : String)
    (t : AttemptResult) : RunResult :=
  if validate_doi doi = false then
    ⟨.raised (.valueError ("Invalid DOI format: " ++ doi)), st, ⟨[], []⟩⟩
  else
    let url := match d.proxyService with
      | some p => p.transform ("https://doi.org/" ++ doi)
      | none => "https://doi.org/" ++ doi
    match t with
    | .clientError msg =>
        ⟨.raised (.doiResolutionError ("Network error resolving DOI: " ++ msg)),
         st, ⟨[url], []⟩⟩
    | .resp status headers body =>
        let st' := update_rate_limits headers
        if status = 429 then
          ⟨.raised (.doiRateLimitError (rateLimitMsg st'.resetAt)), st', ⟨[url], []⟩⟩
        else if status = 404 then
          ⟨.raised (.doiNotFoundError ("DOI not found: " ++ doi)), st', ⟨[url], []⟩⟩
        else if status ≠ 200 then
          ⟨.raised (.doiResolutionError
              ("Failed to resolve DOI: " ++ doi ++ ". Status: " ++ toString status)),
           st', ⟨[url], []⟩⟩
        else
          match d.proxyService with
          | none => ⟨.ret body, st', ⟨[url], []⟩⟩
          | some p =>
              match addProxied p body with
              | .error e => ⟨.raised e, st', ⟨[url], []⟩⟩
              | .ok m => ⟨.ret m, st', ⟨[url], []⟩⟩

/-! ## Statement-side definitions for the claims -/

/-- Whether a fallible computation succeeded. -/
def exceptOk : Except PyExc Json → Bool
  | .ok _ => true
  | .error _ => false

/-- Keys of a JSON object, in order; other values have no keys. -/
def jsonKeys : Json → List String
  | .obj fs => fs.map (fun p => p.1)
  | _ => []

/-- Field of the object produced by a successful computation. -/
def resultField (r : Except PyExc Json) (k : String) : Option Json :=
  match r with
  | .ok (.obj fs) => dictGet fs k
  | _ => none

/-- Field of a JSON object value. -/
def jsonGet (j : Json) (k : String) : Option Json :=
  match j with
  | .obj fs => dictGet fs k
  | _ => none

/-- Whether a value is a JSON array. -/
def isArrJ : Json → Bool
  | .arr _ => true
  | _ => false

/-- Whether a value is a JSON object. -/
def isObjJ : Json → Bool
  | .obj _ => true
  | _ => false

/-- A safe shape for a date field's value: a dict whose `date-parts`, when
present, is a nonempty array whose first element is an array. -/
def safeDate : Json → Bool
  | .obj vfs =>
      match dictGet vfs "date-parts" with
      | none => true
      | some (.arr (.arr _ :: _)) => true
      | some _ => false
  | _ => false

/-- An array of dicts (the safe shape of an `author` field). -/
def authorsArrayOk : Json → Bool
  | .arr xs => xs.all isObjJ
  | _ => false

/-- A date field that is either absent or `safeDate`. -/
def presentDateOk (data : List (String × Json)) (f : String) : Bool :=
  match dictGet data f with
  | none => true
  | some v => safeDate v

/-- Sufficient shape conditions on a payload under which
`_normalize_metadata` cannot raise: `title`, `container-title` and `ISSN`
are arrays when present, `author` is an array of dicts when present, and
each present date field is `safeDate`. -/
def wellShaped (data : List (String × Json)) : Bool :=
  isArrJ (dictGetD data "title" (.arr [])) &&
  isArrJ (dictGetD data "container-title" (.arr [])) &&
  isArrJ (dictGetD data "ISSN" (.arr [])) &&
  authorsArrayOk (dictGetD data "author" (.arr [])) &&
  (dateFields.all fun f => presentDateOk data f)

/-- A date-field value `{'date-parts': [[y]]}`. -/
def dateJson (y : Int) : Json := .obj [("date-parts", .arr [.arr [.num y]])]

/-- A concrete proxy transformer used in witnesses and counterexamples. -/
def exampleProxy : ProxyService :=
  ⟨fun u => "https://ezproxy.example/login?url=" ++ u⟩

/-- A transport whose every attempt fails at the transport level. -/
def boomTransport : Nat → AttemptResult := fun _ => .clientError "boom"

/-! ## Helper lemmas -/

/-- An `isArrJ` value is an array. -/
theorem isArrJ_arr {j : Json} (h : isArrJ j = true) : ∃ xs, j = .arr xs := by
  cases j <;> simp [isArrJ] at h ⊢

/-- `get_first` on an array value never raises and yields the head or the
default. -/
theorem get_first_arr (xs : List Json) (d : Json) :
    get_first (.arr xs) d = .ok (match xs with | [] => d | x :: _ => x) := by
  cases xs with
  | nil => rfl
  | cons x xs => simp [get_first, truthy, pyLen, index0, Nat.succ_pos]

/-- `truthy` on an array. -/
theorem truthy_arr (xs : List Json) : truthy (.arr xs) = !xs.isEmpty := rfl

/-- `truthy` on `null`. -/
theorem truthy_null : truthy .null = false := rfl

/-- An `authorsArrayOk` value is an array of dicts. -/
theorem authorsArrayOk_arr {j : Json} (h : authorsArrayOk j = true) :
    ∃ xs, j = .arr xs ∧ xs.all isObjJ = true := by
  cases j <;> simp [authorsArrayOk] at h ⊢
  exact h

/-- The author loop succeeds on a list of dicts. -/
theorem authorsLoop_ok {xs : List Json} (h : xs.all isObjJ = true) :
    ∃ ys, authorsLoop xs = .ok ys := by
  induction xs with
  | nil => exact ⟨[], rfl⟩
  | cons a xs ih =>
      simp only [List.all_cons, Bool.and_eq_true] at h
      obtain ⟨ha, hxs⟩ := h
      obtain ⟨ys, hys⟩ := ih hxs
      cases a <;> simp [isObjJ] at ha
      case obj afs =>
        exact ⟨.obj [("firstName", dictGetD afs "given" .null),
                     ("lastName", dictGetD afs "family" .null)] :: ys,
               by simp [authorsLoop, authorEntry, hys]⟩

/-- `extractAuthors` succeeds on an array of dicts. -/
theorem extractAuthors_ok {xs : List Json} (h : xs.all isObjJ = true) :
    ∃ ys, extractAuthors (.arr xs) = .ok ys := by
  obtain ⟨ys, hys⟩ := authorsLoop_ok h
  exact ⟨ys, by simp [extractAuthors, iterElems, hys]⟩

/-- A `safeDate` field value never makes the year loop raise. -/
theorem yearFromField_ok {v : Json} (h : safeDate v = true) :
    ∃ r, yearFromField v = .ok r := by
  cases v <;> simp [safeDate] at h
  case obj vfs =>
    cases hdp : dictGet vfs "date-parts" with
    | none =>
        exact ⟨none, by
          simp [yearFromField, dictGetD, hdp, index0, truthy_arr, truthy_null]⟩
    | some j =>
        rw [hdp] at h
        cases j <;> try simp at h
        case arr js =>
          cases js with
          | nil => simp at h
          | cons j0 rest =>
              cases j0 <;> simp at h
              case arr ys =>
                cases ys with
                | nil =>
                    exact ⟨none, by
                      simp [yearFromField, dictGetD, hdp, index0, truthy_arr]⟩
                | cons y ys' =>
                    cases hy : truthy y with
                    | false =>
                        exact ⟨none, by
                          simp [yearFromField, dictGetD, hdp, index0, truthy_arr, hy]⟩
                    | true =>
                        exact ⟨some y, by
                          simp [yearFromField, dictGetD, hdp, index0, truthy_arr, hy]⟩

/-- The year loop succeeds when every present date field is `safeDate`. -/
theorem yearLoop_ok {data : List (String × Json)} {flds : List String}
    (h : ∀ f ∈ flds, presentDateOk data f = true) :
    ∃ r, yearLoop data flds = .ok r := by
  induction flds with
  | nil => exact ⟨.null, rfl⟩
  | cons f rest ih =>
      have hf := h f (List.mem_cons_self f rest)
      have hrest : ∀ g ∈ rest, presentDateOk data g = true :=
        fun g hg => h g (List.mem_cons_of_mem f hg)
      obtain ⟨r, hr⟩ := ih hrest
      cases hdg : dictGet data f with
      | none => exact ⟨r, by simp [yearLoop, hdg, hr]⟩
      | some v =>
          unfold presentDateOk at hf
          rw [hdg] at hf
          obtain ⟨o, ho⟩ := yearFromField_ok hf
          cases o with
          | none => exact ⟨r, by simp [yearLoop, hdg, ho, hr]⟩
          | some y => exact ⟨y, by simp [yearLoop, hdg, ho]⟩

/-! ## Claim C2 -/

/-- Claim C2 counterexample: a response that carries no rate-limit headers
does not leave both tracker fields absent — `_update_rate_limits` falls
back to the integer default `0`, so after a header-less 200 response on
the DOI backend the tracker holds remaining `0` and the epoch reset
timestamp `0`, not absent fields. -/
theorem claim_C2_counterexample :
    (resolve_doi ⟨none⟩ ⟨none, none⟩ "10.1234/x"
        (.resp 200 [] (.obj []))).finalState = ⟨some 0, some 0⟩ ∧
    (⟨some 0, some 0⟩ : RateState) ≠ ⟨none, none⟩ := by
  exact ⟨rfl, by decide⟩

/-- Claim C2 (amended): after every response the tracker parses
`X-Rate-Limit-Remaining` and `X-Rate-Limit-Reset` with a default of `0`
for a missing header; whenever either header is present but non-numeric,
both fields end up absent — never partially populated — while a response
carrying no rate-limit headers sets remaining to `0` and the reset time to
the epoch timestamp `0` rather than leaving the fields absent. -/
theorem claim_C2_amended :
    (∀ hs s, headerGet hs "X-Rate-Limit-Remaining" = some s →
        parsePyInt s = none → update_rate_limits hs = ⟨none, none⟩) ∧
    (∀ hs s, headerGet hs "X-Rate-Limit-Reset" = some s →
        parsePyInt s = none → update_rate_limits hs = ⟨none, none⟩) ∧
    (∀ hs, headerGet hs "X-Rate-Limit-Remaining" = none →
        headerGet hs "X-Rate-Limit-Reset" = none →
        update_rate_limits hs = ⟨some 0, some 0⟩) ∧
    (∀ hs, (update_rate_limits hs).remaining = none ↔
        (update_rate_limits hs).resetAt = none) := by
  refine ⟨?_, ?_, ?_, ?_⟩
  · intro hs s h hp
    simp [update_rate_limits, h, hp]
  · intro hs s h hp
    unfold update_rate_limits
    cases hrem : (match headerGet hs "X-Rate-Limit-Remaining" with
                  | none => some (0 : Int)
                  | some s => parsePyInt s) with
    | none => rfl
    | some rem => simp [h, hp]
  · intro hs h1 h2
    simp [update_rate_limits, h1, h2]
  · intro hs
    unfold update_rate_limits
    cases (match headerGet hs "X-Rate-Limit-Remaining" with
           | none => some (0 : Int)
           | some s => parsePyInt s) with
    | none => simp
    | some rem =>
        cases (match headerGet hs "X-Rate-Limit-Reset" with
               | none => some (0 : Int)
               | some s => parsePyInt s) <;> simp

/-- Witness for claim C2 (amended) at concrete inputs. -/
theorem claim_C2_amended_witness :
    update_rate_limits [("X-Rate-Limit-Remaining", "oops"),
                        ("X-Rate-Limit-Reset", "100")] = ⟨none, none⟩ ∧
    update_rate_limits [("X-Rate-Limit-Remaining", "7"),
                        ("X-Rate-Limit-Reset", "oops")] = ⟨none, none⟩ ∧
    update_rate_limits [("Content-Type", "application/json")] = ⟨some 0, some 0⟩ ∧
    ((update_rate_limits [("X-Rate-Limit-Remaining", "oops")]).remaining = none ↔
        (update_rate_limits [("X-Rate-Limit-Remaining", "oops")]).resetAt = none) :=
  ⟨claim_C2_amended.1 _ "oops" rfl rfl,
   claim_C2_amended.2.1 _ "oops" rfl rfl,
   claim_C2_amended.2.2.1 _ rfl rfl,
   claim_C2_amended.2.2.2 _⟩

/-! ## Claim C3 -/

/-- Claim C3 counterexample: normalization does not survive every payload
with empty source arrays — a present `published-print` whose `date-parts`
is the empty array makes `data[field].get('date-parts', [[None]])[0]`
subscript an empty list, raising IndexError. -/
theorem claim_C3_counterexample :
    normalize_metadata (.obj [("published-print", .obj [("date-parts", .arr [])])]) =
      .error .indexError := rfl

/-- Claim C3 (amended): normalization never raises on payloads whose
relevant fields are well shaped — `title`, `container-title`, `ISSN`
arrays when present, `author` an array of dicts when present, and each
present date field a dict whose `date-parts`, when present, is a nonempty
array starting with an array.  Missing keys and empty arrays for the
non-date fields yield absent values or an empty author list: the cited
example payload with `title: []`, `author: []` and no `container-title`
normalizes without failure to the full record with `title` absent,
`authors` the empty sequence and `journal` absent.  A present date field
with an empty `date-parts` array, however, raises IndexError (see the
counterexample). -/
theorem claim_C3_amended :
    (∀ data, wellShaped data = true →
        exceptOk (normalize_metadata (.obj data)) = true) ∧
    normalize_metadata (.obj [("title", Json.arr []), ("author", Json.arr [])]) =
      .ok (.obj [("title", .null), ("authors", .arr []), ("doi", .null),
                 ("url", .null), ("journal", .null), ("issn", .null),
                 ("issue", .null), ("volume", .null), ("year", .null),
                 ("publisher", .null), ("type", .null), ("language", .null)]) := by
  constructor
  · intro data h
    simp only [wellShaped, Bool.and_eq_true] at h
    obtain ⟨⟨⟨⟨ht, hc⟩, hi⟩, hauth⟩, hdate⟩ := h
    obtain ⟨txs, htxs⟩ := isArrJ_arr ht
    obtain ⟨cxs, hcxs⟩ := isArrJ_arr hc
    obtain ⟨ixs, hixs⟩ := isArrJ_arr hi
    obtain ⟨axs, haxs, hall⟩ := authorsArrayOk_arr hauth
    have hdate' : ∀ f ∈ dateFields, presentDateOk data f = true :=
      fun f hf => (List.all_eq_true.mp hdate) f hf
    obtain ⟨r, hr⟩ := yearLoop_ok hdate'
    obtain ⟨ys, hys⟩ := extractAuthors_ok hall
    simp only [normalize_metadata, normalizeObj]
    rw [htxs, hcxs, hixs, get_first_arr, get_first_arr, get_first_arr, haxs,
        hys, hr]
    rfl
  · rfl

/-- Witness for claim C3 (amended): the spec's empty-array example —
`title: []`, `author: []`, no `container-title` — is well shaped,
normalizes without failure, and yields title absent, authors empty and
journal absent. -/
theorem claim_C3_amended_witness :
    wellShaped [("title", Json.arr []), ("author", Json.arr [])] = true ∧
    exceptOk (normalize_metadata
      (.obj [("title", Json.arr []), ("author", Json.arr [])])) = true ∧
    normalize_metadata (.obj [("title", Json.arr []), ("author", Json.arr [])]) =
      .ok (.obj [("title", .null), ("authors", .arr []), ("doi", .null),
                 ("url", .null), ("journal", .null), ("issn", .null),
                 ("issue", .null), ("volume", .null), ("year", .null),
                 ("publisher", .null), ("type", .null), ("language", .null)]) :=
  ⟨rfl, claim_C3_amended.1 _ rfl, claim_C3_amended.2⟩

/-! ## Claim C8 -/

/-- Claim C8 is right about the intent but the code violates it: with
`max_retries = 0` — a value the constructor accepts without validation —
the attempt loop of `query_doi` runs zero times and the function falls
through, implicitly returning `None`: neither a record nor an error, no
request ever issued, contradicting the function's declared return type
and docstring. -/
theorem claim_C8_bug :
    query_doi ⟨none, 0⟩ ⟨none, none⟩ "10.1234/x" boomTransport =
      ⟨.retNone, ⟨none, none⟩, ⟨[], []⟩⟩ := rfl

/-! ## Claim C4 -/

/-- Claim C4: the normalized year is found by searching `published-print`,
`published-online`, `created` in that fixed priority order, taking the
first component of the first `date-parts` element when truthy and stopping
at the first field that yields one: with all three fields present carrying
distinct (truthy) years the normalized year is `published-print`'s year,
and with none of the fields present the normalized year is absent
(`None`). -/
theorem claim_C4 (y1 y2 y3 : Int) (h1 : y1 ≠ 0)
    (h12 : y1 ≠ y2) (h13 : y1 ≠ y3) (h23 : y2 ≠ y3) :
    resultField (normalize_metadata (.obj
        [("published-print", dateJson y1), ("published-online", dateJson y2),
         ("created", dateJson y3)])) "year" = some (.num y1) ∧
    resultField (normalize_metadata (.obj [])) "year" = some .null := by
  constructor
  · simp [normalize_metadata, normalizeObj, get_first, dictGetD, dictGet,
      extractAuthors, iterElems, authorsLoop, yearLoop, dateFields,
      yearFromField, dateJson, index0, truthy, pyLen, resultField, h1]
  · rfl

/-- Witness for claim C4 at concrete distinct years. -/
theorem claim_C4_witness :
    resultField (normalize_metadata (.obj
        [("published-print", dateJson 2020), ("published-online", dateJson 2021),
         ("created", dateJson 2022)])) "year" = some (.num 2020) ∧
    resultField (normalize_metadata (.obj [])) "year" = some .null :=
  claim_C4 2020 2021 2022 (by decide) (by decide) (by decide) (by decide)

/-! ## Claim C10 -/

/-- Shape of one author-loop entry. -/
theorem authorEntry_keys {a e : Json} (h : authorEntry a = .ok e) :
    jsonKeys e = ["firstName", "lastName"] := by
  cases a <;> simp [authorEntry] at h
  case obj afs => rw [← h]; rfl

/-- Every record the author loop produces has exactly the keys
`firstName` and `lastName`. -/
theorem authorsLoop_keys {xs ys : List Json} (h : authorsLoop xs = .ok ys) :
    ∀ y ∈ ys, jsonKeys y = ["firstName", "lastName"] := by
  induction xs generalizing ys with
  | nil =>
      simp only [authorsLoop] at h
      cases h
      intro y hy
      cases hy
  | cons a xs ih =>
      simp only [authorsLoop] at h
      cases hE : authorEntry a with
      | error e => rw [hE] at h; cases h
      | ok entry =>
          rw [hE] at h
          cases hL : authorsLoop xs with
          | error e => rw [hL] at h; cases h
          | ok es =>
              rw [hL] at h
              cases h
              intro y hy
              cases hy with
              | head => exact authorEntry_keys hE
              | tail _ hmem => exact ih hL y hmem

/-- Every record `extractAuthors` produces has exactly the keys
`firstName` and `lastName`. -/
theorem extractAuthors_keys {src : Json} {ys : List Json}
    (h : extractAuthors src = .ok ys) :
    ∀ y ∈ ys, jsonKeys y = ["firstName", "lastName"] := by
  unfold extractAuthors at h
  cases hI : iterElems src with
  | error e => rw [hI] at h; cases h
  | ok xs => rw [hI] at h; exact authorsLoop_keys h

/-- Claim C10: every record `_normalize_metadata` returns has exactly the
twelve keys `title, authors, doi, url, journal, issn, issue, volume, year,
publisher, type, language`, in that order, each always present; `authors`
is always a (possibly empty) list whose entries each have exactly the keys
`firstName` and `lastName`. -/
theorem claim_C10 (j m : Json) (h : normalize_metadata j = .ok m) :
    jsonKeys m = ["title", "authors", "doi", "url", "journal", "issn",
                  "issue", "volume", "year", "publisher", "type", "language"] ∧
    ∃ ys, jsonGet m "authors" = some (.arr ys) ∧
      ∀ y ∈ ys, jsonKeys y = ["firstName", "lastName"] := by
  cases j <;> simp [normalize_metadata] at h
  case obj data =>
    simp only [normalizeObj] at h
    cases hT : get_first (dictGetD data "title" (.arr [])) .null with
    | error e => rw [hT] at h; cases h
    | ok title =>
    rw [hT] at h
    cases hJ : get_first (dictGetD data "container-title" (.arr [])) .null with
    | error e => rw [hJ] at h; cases h
    | ok journal =>
    rw [hJ] at h
    cases hI : get_first (dictGetD data "ISSN" (.arr [])) .null with
    | error e => rw [hI] at h; cases h
    | ok issn =>
    rw [hI] at h
    cases hA : extractAuthors (dictGetD data "author" (.arr [])) with
    | error e => rw [hA] at h; cases h
    | ok authors =>
    rw [hA] at h
    cases hY : yearLoop data dateFields with
    | error e => rw [hY] at h; cases h
    | ok year =>
    rw [hY] at h
    cases h
    refine ⟨rfl, ⟨authors, ?_, extractAuthors_keys hA⟩⟩
    rfl

/-- Witness for claim C10 at the spec's end-to-end example payload. -/
theorem claim_C10_witness :
    jsonKeys (Json.obj
      [("title", .str "A Study"),
       ("authors", .arr [.obj [("firstName", .str "A"), ("lastName", .str "Smith")]]),
       ("doi", .str "10.1234/example.doi"), ("url", .null), ("journal", .null),
       ("issn", .null), ("issue", .null), ("volume", .null), ("year", .num 2020),
       ("publisher", .null), ("type", .null), ("language", .null)]) =
      ["title", "authors", "doi", "url", "journal", "issn",
       "issue", "volume", "year", "publisher", "type", "language"] ∧
    ∃ ys, jsonGet (Json.obj
      [("title", .str "A Study"),
       ("authors", .arr [.obj [("firstName", .str "A"), ("lastName", .str "Smith")]]),
       ("doi", .str "10.1234/example.doi"), ("url", .null), ("journal", .null),
       ("issn", .null), ("issue", .null), ("volume", .null), ("year", .num 2020),
       ("publisher", .null), ("type", .null), ("language", .null)])
        "authors" = some (.arr ys) ∧
      ∀ y ∈ ys, jsonKeys y = ["firstName", "lastName"] :=
  claim_C10
    (.obj [("title", .arr [.str "A Study"]),
           ("author", .arr [.obj [("given", .str "A"), ("family", .str "Smith")]]),
           ("DOI", .str "10.1234/example.doi"),
           ("published-print", .obj [("date-parts", .arr [.arr [.num 2020, .num 5]])])])
    _ rfl

/-! ## Claim C1 -/

/-- The attempt loop under a transport that fails every attempt: every
remaining attempt dispatches a request, each non-final failed attempt
sleeps `2 ^ attempt`, and the final attempt's failure is wrapped as
`CrossRefAPIError`. -/
theorem queryDoiLoop_allFail (doi : String) (msgs : Nat → String) (maxN : Nat)
    (st : RateState) :
    ∀ fuel attempt, attempt + fuel = maxN → 1 ≤ fuel →
    queryDoiLoop doi (fun i => .clientError (msgs i)) maxN st attempt fuel =
      ⟨.raised (.crossRefAPIError ("Network error: " ++ msgs (maxN - 1))), st,
       ⟨List.replicate fuel (crossrefUrl doi),
        (List.range' attempt (fuel - 1)).map (fun a => 2 ^ a)⟩⟩ := by
  intro fuel
  induction fuel with
  | zero => intro attempt _ hfuel; exact absurd hfuel (by omega)
  | succ f ih =>
      intro attempt hsum _
      simp only [queryDoiLoop]
      by_cases hlast : attempt = maxN - 1
      · have hf : f = 0 := by omega
        subst hf
        rw [if_pos hlast, hlast]
        simp
      · have hf : 1 ≤ f := by omega
        rw [if_neg hlast, ih (attempt + 1) (by omega) hf]
        obtain ⟨k, hk⟩ : ∃ k, f = k + 1 := ⟨f - 1, by omega⟩
        subst hk
        simp [List.replicate_succ, List.range'_succ]

/-- Claim C1 counterexample: under the default configuration
(`max_retries = 3`) the CrossRef backend sleeps 1 then 2 — never 4 — when
every attempt fails at the transport level, because no delay follows the
final attempt; and the DOI backend performs no retry at all: its first
transport failure is wrapped and raised after exactly one request. -/
theorem claim_C1_counterexample :
    (query_doi ⟨none, 3⟩ ⟨none, none⟩ "10.1234/x" boomTransport).log.sleeps =
      [1, 2] ∧
    ([1, 2] : List Nat) ≠ [1, 2, 4] ∧
    (resolve_doi ⟨none⟩ ⟨none, none⟩ "10.1234/x" (.clientError "boom")).log.requests =
      ["https://doi.org/10.1234/x"] ∧
    (resolve_doi ⟨none⟩ ⟨none, none⟩ "10.1234/x" (.clientError "boom")).outcome =
      .raised (.doiResolutionError "Network error resolving DOI: boom") :=
  ⟨rfl, by decide, rfl, rfl⟩

/-- Claim C1 (amended): only the CrossRef backend retries.  On the CrossRef
path a transport-level failure is retried up to `max_retries` total
attempts with a delay of `2 ^ attempt` after each failed non-final attempt
— delays 1, 2 under the default `max_retries = 3` — and only the final
attempt's transport failure is wrapped and raised, so a transport that
fails on every attempt raises exactly after `max_retries` attempts.  The
DOI backend performs no retry: the first transport failure is wrapped as
`DOIResolutionError` and raised after exactly one attempt, with no
backoff. -/
theorem claim_C1_amended :
    (∀ (c : CrossRefTranslator) (st : RateState) (doi : String)
        (msgs : Nat → String) (n : Nat),
        c.maxRetries = (n : Int) → 1 ≤ n → doi ≠ "" →
        query_doi c st doi (fun i => .clientError (msgs i)) =
          ⟨.raised (.crossRefAPIError ("Network error: " ++ msgs (n - 1))), st,
           ⟨List.replicate n (crossrefUrl doi),
            (List.range (n - 1)).map (fun a => 2 ^ a)⟩⟩) ∧
    (∀ (st : RateState) (doi : String) (msg : String),
        validate_doi doi = true →
        resolve_doi ⟨none⟩ st doi (.clientError msg) =
          ⟨.raised (.doiResolutionError ("Network error resolving DOI: " ++ msg)),
           st, ⟨["https://doi.org/" ++ doi], []⟩⟩) := by
  constructor
  · intro c st doi msgs n hmr hn hdoi
    have htn : c.maxRetries.toNat = n := by rw [hmr]; omega
    unfold query_doi
    rw [if_neg hdoi, htn,
        queryDoiLoop_allFail doi msgs n st n 0 (by omega) hn,
        List.range_eq_range']
  · intro st doi msg hv
    unfold resolve_doi
    rw [hv]
    rfl

/-- Witness for claim C1 (amended) at concrete inputs. -/
theorem claim_C1_amended_witness :
    query_doi ⟨none, 3⟩ ⟨none, none⟩ "10.1234/x" (fun _ => .clientError "boom") =
      ⟨.raised (.crossRefAPIError ("Network error: " ++ "boom")), ⟨none, none⟩,
       ⟨List.replicate 3 (crossrefUrl "10.1234/x"),
        (List.range 2).map (fun a => 2 ^ a)⟩⟩ ∧
    resolve_doi ⟨none⟩ ⟨none, none⟩ "10.9999/y" (.clientError "down") =
      ⟨.raised (.doiResolutionError ("Network error resolving DOI: " ++ "down")),
       ⟨none, none⟩, ⟨["https://doi.org/" ++ "10.9999/y"], []⟩⟩ :=
  ⟨claim_C1_amended.1 ⟨none, 3⟩ ⟨none, none⟩ "10.1234/x" (fun _ => "boom") 3
      rfl (by decide) (by decide),
   claim_C1_amended.2 ⟨none, none⟩ "10.9999/y" "down" (by decide)⟩

/-! ## Claim C7 -/

/-- Claim C7: each resolve call raises exactly the taxonomy error its input
and response determine.  An empty DOI (CrossRef) or a malformed DOI
(DOI.org) raises `ValueError` before any request is dispatched; a 404
raises the backend's own not-found subtype; a 429 raises the backend's
rate-limit error whose message carries the reset time just tracked from
this response's headers (or `unknown` when the tracker holds none); any
other non-200 status raises the generic backend API error; and every one
of these HTTP-status errors is raised after exactly one request — none is
retried. -/
theorem claim_C7 :
    (∀ (c : CrossRefTranslator) (st : RateState) (t : Nat → AttemptResult),
        query_doi c st "" t =
          ⟨.raised (.valueError "DOI cannot be empty"), st, ⟨[], []⟩⟩) ∧
    (∀ (d : DOITranslator) (st : RateState) (doi : String) (t : AttemptResult),
        validate_doi doi = false →
        resolve_doi d st doi t =
          ⟨.raised (.valueError ("Invalid DOI format: " ++ doi)), st, ⟨[], []⟩⟩) ∧
    (∀ (c : CrossRefTranslator) (st : RateState) (doi : String)
        (t : Nat → AttemptResult) (hs : List (String × String)) (body : Json),
        doi ≠ "" → 1 ≤ c.maxRetries → t 0 = .resp 404 hs body →
        query_doi c st doi t =
          ⟨.raised (.crDOINotFoundError ("DOI not found: " ++ doi)),
           update_rate_limits hs, ⟨[crossrefUrl doi], []⟩⟩) ∧
    (∀ (c : CrossRefTranslator) (st : RateState) (doi : String)
        (t : Nat → AttemptResult) (hs : List (String × String)) (body : Json),
        doi ≠ "" → 1 ≤ c.maxRetries → t 0 = .resp 429 hs body →
        query_doi c st doi t =
          ⟨.raised (.crRateLimitError (rateLimitMsg (update_rate_limits hs).resetAt)),
           update_rate_limits hs, ⟨[crossrefUrl doi], []⟩⟩) ∧
    (∀ (c : CrossRefTranslator) (st : RateState) (doi : String)
        (t : Nat → AttemptResult) (hs : List (String × String)) (body : Json)
        (status : Nat),
        doi ≠ "" → 1 ≤ c.maxRetries → t 0 = .resp status hs body →
        status ≠ 200 → status ≠ 404 → status ≠ 429 →
        query_doi c st doi t =
          ⟨.raised (.crossRefAPIError ("CrossRef API error: " ++ toString status)),
           update_rate_limits hs, ⟨[crossrefUrl doi], []⟩⟩) ∧
    (∀ (st : RateState) (doi : String) (hs : List (String × String)) (body : Json),
        validate_doi doi = true →
        resolve_doi ⟨none⟩ st doi (.resp 404 hs body) =
          ⟨.raised (.doiNotFoundError ("DOI not found: " ++ doi)),
           update_rate_limits hs, ⟨["https://doi.org/" ++ doi], []⟩⟩) ∧
    (∀ (st : RateState) (doi : String) (hs : List (String × String)) (body : Json),
        validate_doi doi = true →
        resolve_doi ⟨none⟩ st doi (.resp 429 hs body) =
          ⟨.raised (.doiRateLimitError (rateLimitMsg (update_rate_limits hs).resetAt)),
           update_rate_limits hs, ⟨["https://doi.org/" ++ doi], []⟩⟩) ∧
    (∀ (st : RateState) (doi : String) (hs : List (String × String)) (body : Json)
        (status : Nat),
        validate_doi doi = true → status ≠ 200 → status ≠ 404 → status ≠ 429 →
        resolve_doi ⟨none⟩ st doi (.resp status hs body) =
          ⟨.raised (.doiResolutionError
              ("Failed to resolve DOI: " ++ doi ++ ". Status: " ++ toString status)),
           update_rate_limits hs, ⟨["https://doi.org/" ++ doi], []⟩⟩) := by
  refine ⟨?_, ?_, ?_, ?_, ?_, ?_, ?_, ?_⟩
  · intro c st t
    rfl
  · intro d st doi t hv
    unfold resolve_doi
    rw [hv]
    rfl
  · intro c st doi t hs body hdoi hmr ht0
    obtain ⟨k, hk⟩ : ∃ k, c.maxRetries.toNat = k + 1 := ⟨c.maxRetries.toNat - 1, by omega⟩
    unfold query_doi
    rw [if_neg hdoi, hk]
    simp [queryDoiLoop, ht0]
  · intro c st doi t hs body hdoi hmr ht0
    obtain ⟨k, hk⟩ : ∃ k, c.maxRetries.toNat = k + 1 := ⟨c.maxRetries.toNat - 1, by omega⟩
    unfold query_doi
    rw [if_neg hdoi, hk]
    simp [queryDoiLoop, ht0]
  · intro c st doi t hs body status hdoi hmr ht0 h200 h404 h429
    obtain ⟨k, hk⟩ : ∃ k, c.maxRetries.toNat = k + 1 := ⟨c.maxRetries.toNat - 1, by omega⟩
    unfold query_doi
    rw [if_neg hdoi, hk]
    simp [queryDoiLoop, ht0, h200, h404, h429]
  · intro st doi hs body hv
    unfold resolve_doi
    rw [hv]
    rfl
  · intro st doi hs body hv
    unfold resolve_doi
    rw [hv]
    rfl
  · intro st doi hs body status hv h200 h404 h429
    unfold resolve_doi
    rw [hv]
    simp [h200, h404, h429]

/-- Witness for claim C7: each taxonomy branch exercised at a concrete
input. -/
theorem claim_C7_witness :
    query_doi ⟨none, 3⟩ ⟨none, none⟩ "" boomTransport =
      ⟨.raised (.valueError "DOI cannot be empty"), ⟨none, none⟩, ⟨[], []⟩⟩ ∧
    resolve_doi ⟨none⟩ ⟨none, none⟩ "bad doi" (.clientError "x") =
      ⟨.raised (.valueError ("Invalid DOI format: " ++ "bad doi")),
       ⟨none, none⟩, ⟨[], []⟩⟩ ∧
    query_doi ⟨none, 3⟩ ⟨none, none⟩ "10.1234/x" (fun _ => .resp 404 [] .null) =
      ⟨.raised (.crDOINotFoundError ("DOI not found: " ++ "10.1234/x")),
       update_rate_limits [], ⟨[crossrefUrl "10.1234/x"], []⟩⟩ ∧
    query_doi ⟨none, 3⟩ ⟨none, none⟩ "10.1234/x"
        (fun _ => .resp 429 [("X-Rate-Limit-Remaining", "5"),
                             ("X-Rate-Limit-Reset", "1700000000")] .null) =
      ⟨.raised (.crRateLimitError (rateLimitMsg
          (update_rate_limits [("X-Rate-Limit-Remaining", "5"),
                               ("X-Rate-Limit-Reset", "1700000000")]).resetAt)),
       update_rate_limits [("X-Rate-Limit-Remaining", "5"),
                           ("X-Rate-Limit-Reset", "1700000000")],
       ⟨[crossrefUrl "10.1234/x"], []⟩⟩ ∧
    query_doi ⟨none, 3⟩ ⟨none, none⟩ "10.1234/x" (fun _ => .resp 500 [] .null) =
      ⟨.raised (.crossRefAPIError ("CrossRef API error: " ++ toString 500)),
       update_rate_limits [], ⟨[crossrefUrl "10.1234/x"], []⟩⟩ ∧
    resolve_doi ⟨none⟩ ⟨none, none⟩ "10.1234/x" (.resp 404 [] .null) =
      ⟨.raised (.doiNotFoundError ("DOI not found: " ++ "10.1234/x")),
       update_rate_limits [], ⟨["https://doi.org/" ++ "10.1234/x"], []⟩⟩ ∧
    resolve_doi ⟨none⟩ ⟨none, none⟩ "10.1234/x" (.resp 429 [] .null) =
      ⟨.raised (.doiRateLimitError (rateLimitMsg (update_rate_limits []).resetAt)),
       update_rate_limits [], ⟨["https://doi.org/" ++ "10.1234/x"], []⟩⟩ ∧
    resolve_doi ⟨none⟩ ⟨none, none⟩ "10.1234/x" (.resp 503 [] .null) =
      ⟨.raised (.doiResolutionError
          ("Failed to resolve DOI: " ++ "10.1234/x" ++ ". Status: " ++ toString 503)),
       update_rate_limits [], ⟨["https://doi.org/" ++ "10.1234/x"], []⟩⟩ :=
  ⟨claim_C7.1 ⟨none, 3⟩ ⟨none, none⟩ boomTransport,
   claim_C7.2.1 ⟨none⟩ ⟨none, none⟩ "bad doi" (.clientError "x") (by decide),
   claim_C7.2.2.1 ⟨none, 3⟩ ⟨none, none⟩ "10.1234/x" (fun _ => .resp 404 [] .null)
     [] .null (by decide) (by decide) rfl,
   claim_C7.2.2.2.1 ⟨none, 3⟩ ⟨none, none⟩ "10.1234/x"
     (fun _ => .resp 429 [("X-Rate-Limit-Remaining", "5"),
                          ("X-Rate-Limit-Reset", "1700000000")] .null)
     [("X-Rate-Limit-Remaining", "5"), ("X-Rate-Limit-Reset", "1700000000")]
     .null (by decide) (by decide) rfl,
   claim_C7.2.2.2.2.1 ⟨none, 3⟩ ⟨none, none⟩ "10.1234/x"
     (fun _ => .resp 500 [] .null) [] .null 500 (by decide) (by decide) rfl
     (by decide) (by decide) (by decide),
   claim_C7.2.2.2.2.2.1 ⟨none, none⟩ "10.1234/x" [] .null (by decide),
   claim_C7.2.2.2.2.2.2.1 ⟨none, none⟩ "10.1234/x" [] .null (by decide),
   claim_C7.2.2.2.2.2.2.2 ⟨none, none⟩ "10.1234/x" [] .null 503 (by decide)
     (by decide) (by decide) (by decide)⟩

/-! ## Claim C6 -/

/-- A binding found on the left of an append is found in the whole. -/
theorem dictGet_append_left {fs ys : List (String × Json)} {k : String} {v : Json}
    (h : dictGet fs k = some v) : dictGet (fs ++ ys) k = some v := by
  induction fs with
  | nil => simp [dictGet] at h
  | cons p rest ih =>
      obtain ⟨k', v'⟩ := p
      simp only [dictGet, List.cons_append] at h ⊢
      by_cases hk : k' = k
      · rw [if_pos hk] at h ⊢; exact h
      · rw [if_neg hk] at h ⊢; exact ih h

/-- A key absent on the left of an append is looked up on the right. -/
theorem dictGet_append_right {fs ys : List (String × Json)} {k : String}
    (h : dictGet fs k = none) : dictGet (fs ++ ys) k = dictGet ys k := by
  induction fs with
  | nil => rfl
  | cons p rest ih =>
      obtain ⟨k', v'⟩ := p
      simp only [dictGet, List.cons_append] at h ⊢
      by_cases hk : k' = k
      · rw [if_pos hk] at h; cases h
      · rw [if_neg hk] at h ⊢; exact ih h

/-- Setting an absent key appends the binding (Python dict insertion
order). -/
theorem dictSet_append {fs : List (String × Json)} {k : String} (v : Json)
    (h : dictGet fs k = none) : dictSet fs k v = fs ++ [(k, v)] := by
  induction fs with
  | nil => rfl
  | cons p rest ih =>
      obtain ⟨k', v'⟩ := p
      simp only [dictGet] at h
      simp only [dictSet, List.cons_append]
      by_cases hk : k' = k
      · rw [if_pos hk] at h; cases h
      · rw [if_neg hk] at h ⊢
        rw [ih h]

/-- Claim C6 counterexample: the CrossRef backend accepts no proxy and
never transforms its outbound URL — its request goes to the bare CrossRef
URL, which differs from what the proxy transformer would produce. -/
theorem claim_C6_counterexample :
    (query_doi ⟨none, 3⟩ ⟨none, none⟩ "10.1234/x"
        (fun _ => .resp 404 [] .null)).log.requests =
      ["https://api.crossref.org/works/10.1234/x"] ∧
    exampleProxy.transform "https://api.crossref.org/works/10.1234/x" ≠
      "https://api.crossref.org/works/10.1234/x" :=
  ⟨rfl, by decide⟩

/-- Claim C6 (amended): only the DOI backend consumes the proxy.  With a
proxy configured it transforms the outbound request URL before dispatch,
and when the 200-response record contains string-valued `URL` and/or
`link` keys (and no pre-existing `proxied_url`/`proxied_link`), the
returned record keeps every original binding unchanged and in place,
appending exactly a `proxied_url` and/or `proxied_link` key for each
present original, whose value is the transformer's output on that
original.  The three parts cover the record holding both keys, only
`URL`, and only `link`.  The CrossRef backend accepts no proxy and
dispatches its URL untransformed (see the counterexample). -/
theorem claim_C6_amended :
    (∀ (p : ProxyService) (st : RateState) (doi : String)
        (hs : List (String × String)) (fs : List (String × Json)) (u l : String),
        validate_doi doi = true →
        dictGet fs "URL" = some (.str u) →
        dictGet fs "link" = some (.str l) →
        dictGet fs "proxied_url" = none →
        dictGet fs "proxied_link" = none →
        resolve_doi ⟨some p⟩ st doi (.resp 200 hs (.obj fs)) =
          ⟨.ret (.obj (fs ++ [("proxied_url", .str (p.transform u)),
                              ("proxied_link", .str (p.transform l))])),
           update_rate_limits hs,
           ⟨[p.transform ("https://doi.org/" ++ doi)], []⟩⟩) ∧
    (∀ (p : ProxyService) (st : RateState) (doi : String)
        (hs : List (String × String)) (fs : List (String × Json)) (u : String),
        validate_doi doi = true →
        dictGet fs "URL" = some (.str u) →
        dictGet fs "link" = none →
        dictGet fs "proxied_url" = none →
        resolve_doi ⟨some p⟩ st doi (.resp 200 hs (.obj fs)) =
          ⟨.ret (.obj (fs ++ [("proxied_url", .str (p.transform u))])),
           update_rate_limits hs,
           ⟨[p.transform ("https://doi.org/" ++ doi)], []⟩⟩) ∧
    (∀ (p : ProxyService) (st : RateState) (doi : String)
        (hs : List (String × String)) (fs : List (String × Json)) (l : String),
        validate_doi doi = true →
        dictGet fs "URL" = none →
        dictGet fs "link" = some (.str l) →
        dictGet fs "proxied_link" = none →
        resolve_doi ⟨some p⟩ st doi (.resp 200 hs (.obj fs)) =
          ⟨.ret (.obj (fs ++ [("proxied_link", .str (p.transform l))])),
           update_rate_limits hs,
           ⟨[p.transform ("https://doi.org/" ++ doi)], []⟩⟩) := by
  refine ⟨?_, ?_, ?_⟩
  · intro p st doi hs fs u l hv hU hL hnU hnL
    have hcU : dictContains fs "URL" = true := by
      simp [dictContains, hU]
    have hsU : dictSet fs "proxied_url" (.str (p.transform u)) =
        fs ++ [("proxied_url", .str (p.transform u))] := dictSet_append _ hnU
    have hL' : dictGet (fs ++ [("proxied_url", .str (p.transform u))]) "link" =
        some (.str l) := dictGet_append_left hL
    have hcL : dictContains (fs ++ [("proxied_url", .str (p.transform u))])
        "link" = true := by simp [dictContains, hL']
    have hnL' : dictGet (fs ++ [("proxied_url", .str (p.transform u))])
        "proxied_link" = none := by
      rw [dictGet_append_right hnL]
      rfl
    have hsL : dictSet (fs ++ [("proxied_url", .str (p.transform u))])
        "proxied_link" (.str (p.transform l)) =
        fs ++ [("proxied_url", .str (p.transform u)),
               ("proxied_link", .str (p.transform l))] := by
      rw [dictSet_append _ hnL', List.append_assoc]
      rfl
    unfold resolve_doi
    rw [hv]
    simp only [Bool.true_eq_false, if_false]
    simp only [addProxied, pyContains, pyGetItem, pySetItem, transformValue,
      hcU, hU, hsU, hL', hcL, hsL, if_true]
    rfl
  · intro p st doi hs fs u hv hU hL hnU
    have hcU : dictContains fs "URL" = true := by
      simp [dictContains, hU]
    have hsU : dictSet fs "proxied_url" (.str (p.transform u)) =
        fs ++ [("proxied_url", .str (p.transform u))] := dictSet_append _ hnU
    have hL' : dictGet (fs ++ [("proxied_url", .str (p.transform u))]) "link" =
        none := by
      rw [dictGet_append_right hL]
      rfl
    have hcL : dictContains (fs ++ [("proxied_url", .str (p.transform u))])
        "link" = false := by simp [dictContains, hL']
    unfold resolve_doi
    rw [hv]
    simp only [Bool.true_eq_false, if_false]
    simp only [addProxied, pyContains, pyGetItem, pySetItem, transformValue,
      hcU, hU, hsU, hcL, if_true]
    rfl
  · intro p st doi hs fs l hv hU hL hnL
    have hcU : dictContains fs "URL" = false := by
      simp [dictContains, hU]
    have hcL : dictContains fs "link" = true := by
      simp [dictContains, hL]
    have hsL : dictSet fs "proxied_link" (.str (p.transform l)) =
        fs ++ [("proxied_link", .str (p.transform l))] := dictSet_append _ hnL
    unfold resolve_doi
    rw [hv]
    simp [addProxied, pyContains, pyGetItem, pySetItem, transformValue,
      hcU, hcL, hL, hsL]

/-- Witness for claim C6 (amended): concrete records holding both keys,
only `URL`, and only `link`. -/
theorem claim_C6_amended_witness :
    resolve_doi ⟨some exampleProxy⟩ ⟨none, none⟩ "10.1234/x"
        (.resp 200 [] (.obj [("URL", .str "https://doi.org/10.1234/x"),
                             ("link", .str "https://pub.example/a"),
                             ("title", .str "T")])) =
      ⟨.ret (.obj [("URL", .str "https://doi.org/10.1234/x"),
                   ("link", .str "https://pub.example/a"),
                   ("title", .str "T"),
                   ("proxied_url",
                    .str (exampleProxy.transform "https://doi.org/10.1234/x")),
                   ("proxied_link",
                    .str (exampleProxy.transform "https://pub.example/a"))]),
       update_rate_limits [],
       ⟨[exampleProxy.transform ("https://doi.org/" ++ "10.1234/x")], []⟩⟩ ∧
    resolve_doi ⟨some exampleProxy⟩ ⟨none, none⟩ "10.1234/x"
        (.resp 200 [] (.obj [("URL", .str "https://doi.org/10.1234/x"),
                             ("title", .str "T")])) =
      ⟨.ret (.obj [("URL", .str "https://doi.org/10.1234/x"),
                   ("title", .str "T"),
                   ("proxied_url",
                    .str (exampleProxy.transform "https://doi.org/10.1234/x"))]),
       update_rate_limits [],
       ⟨[exampleProxy.transform ("https://doi.org/" ++ "10.1234/x")], []⟩⟩ ∧
    resolve_doi ⟨some exampleProxy⟩ ⟨none, none⟩ "10.1234/x"
        (.resp 200 [] (.obj [("link", .str "https://pub.example/a")])) =
      ⟨.ret (.obj [("link", .str "https://pub.example/a"),
                   ("proxied_link",
                    .str (exampleProxy.transform "https://pub.example/a"))]),
       update_rate_limits [],
       ⟨[exampleProxy.transform ("https://doi.org/" ++ "10.1234/x")], []⟩⟩ :=
  ⟨claim_C6_amended.1 exampleProxy ⟨none, none⟩ "10.1234/x" []
     [("URL", .str "https://doi.org/10.1234/x"),
      ("link", .str "https://pub.example/a"), ("title", .str "T")]
     "https://doi.org/10.1234/x" "https://pub.example/a"
     (by decide) rfl rfl rfl rfl,
   claim_C6_amended.2.1 exampleProxy ⟨none, none⟩ "10.1234/x" []
     [("URL", .str "https://doi.org/10.1234/x"), ("title", .str "T")]
     "https://doi.org/10.1234/x" (by decide) rfl rfl rfl,
   claim_C6_amended.2.2 exampleProxy ⟨none, none⟩ "10.1234/x" []
     [("link", .str "https://pub.example/a")]
     "https://pub.example/a" (by decide) rfl rfl rfl⟩

/-! ## Claim C5 -/

/-- `takeWhile`/`dropWhile` across an append whose left part satisfies `p`
elementwise and whose right part is empty or starts with a non-`p`
element. -/
theorem takeWhile_dropWhile_append {p : Char → Bool} {xs ys : List Char}
    (hx : ∀ a ∈ xs, p a = true)
    (hy : ∀ b t, ys = b :: t → p b = false) :
    (xs ++ ys).takeWhile p = xs ∧ (xs ++ ys).dropWhile p = ys := by
  induction xs with
  | nil =>
      simp only [List.nil_append]
      cases ys with
      | nil => simp
      | cons b t =>
          have hb := hy b t rfl
          simp [List.takeWhile_cons, List.dropWhile_cons, hb]
  | cons a xs ih =>
      have ha := hx a (List.mem_cons_self a xs)
      have hx' : ∀ c ∈ xs, p c = true :=
        fun c hc => hx c (List.mem_cons_of_mem a hc)
      obtain ⟨h1, h2⟩ := ih hx'
      simp [List.takeWhile_cons, List.dropWhile_cons, ha, h1, h2]

/-- `validate_doi` agrees with the raw pattern match on the character
list: the empty string fails the pattern anyway. -/
theorem validate_doi_eq (s : String) :
    validate_doi s = doiPatternMatch s.toList := by
  unfold validate_doi
  by_cases h : s = ""
  · subst h; rfl
  · rw [if_neg h]

/-- The Python regex match of `DOI_PATTERN` holds exactly on the strings
of the spec grammar, plus those same strings with one trailing newline
(Python `$` matches just before a final newline). -/
theorem doiPatternMatch_iff (cs : List Char) :
    doiPatternMatch cs = true ↔
      (specDoiGrammar cs = true ∨
       ∃ ds, cs = ds ++ ['\n'] ∧ specDoiGrammar ds = true) := by
  constructor
  · intro h
    unfold doiPatternMatch at h
    split at h
    case h_2 => simp at h
    case h_1 rest =>
      rw [Bool.and_eq_true] at h
      obtain ⟨hdig, h⟩ := h
      split at h
      case h_2 => simp at h
      case h_1 tail hdw =>
        rw [Bool.and_eq_true, Bool.or_eq_true] at h
        obtain ⟨hbody, hrem⟩ := h
        rw [decide_eq_true_eq] at hbody
        have hrest : rest.takeWhile Char.isDigit ++ '/' :: tail = rest := by
          have := List.takeWhile_append_dropWhile Char.isDigit rest
          rw [hdw] at this
          exact this
        cases hrem with
        | inl hnil =>
            rw [decide_eq_true_eq] at hnil
            left
            simp [specDoiGrammar, hdw, hdig, hnil, hbody]
        | inr hnl =>
            rw [decide_eq_true_eq] at hnl
            right
            refine ⟨'1' :: '0' :: '.' ::
              (rest.takeWhile Char.isDigit ++ '/' :: tail.takeWhile isDOIBodyChar),
              ?_, ?_⟩
            · have htail : tail.takeWhile isDOIBodyChar ++ ['\n'] = tail := by
                have := List.takeWhile_append_dropWhile isDOIBodyChar tail
                rw [hnl] at this
                exact this
              have hr2 : rest = rest.takeWhile Char.isDigit ++
                  '/' :: (tail.takeWhile isDOIBodyChar ++ ['\n']) := by
                rw [htail, hrest]
              conv_lhs => rw [hr2]
              simp
            · have hdall : ∀ c ∈ rest.takeWhile Char.isDigit,
                  Char.isDigit c = true :=
                fun c hc => List.mem_takeWhile_imp hc
              have hball : ∀ c ∈ tail.takeWhile isDOIBodyChar,
                  isDOIBodyChar c = true :=
                fun c hc => List.mem_takeWhile_imp hc
              obtain ⟨htk1, hdr1⟩ := @takeWhile_dropWhile_append
                Char.isDigit (rest.takeWhile Char.isDigit)
                ('/' :: tail.takeWhile isDOIBodyChar)
                hdall (fun b t hbt => by cases hbt; decide)
              obtain ⟨htk2, hdr2⟩ := @takeWhile_dropWhile_append
                isDOIBodyChar (tail.takeWhile isDOIBodyChar) [] hball
                (fun b t hbt => by cases hbt)
              rw [List.append_nil] at htk2 hdr2
              simp [specDoiGrammar, htk1, hdr1, htk2, hdr2, hdig, hbody]
  · intro h
    cases h with
    | inl hspec =>
        unfold specDoiGrammar at hspec
        split at hspec
        case h_2 => simp at hspec
        case h_1 rest =>
          rw [Bool.and_eq_true] at hspec
          obtain ⟨hdig, hspec⟩ := hspec
          split at hspec
          case h_2 => simp at hspec
          case h_1 tail hdw =>
            rw [Bool.and_eq_true] at hspec
            obtain ⟨hbody, hnil⟩ := hspec
            rw [decide_eq_true_eq] at hnil
            simp [doiPatternMatch, hdw, hdig, hbody, hnil]
    | inr hex =>
        obtain ⟨ds, hcs, hspec⟩ := hex
        unfold specDoiGrammar at hspec
        split at hspec
        case h_2 => simp at hspec
        case h_1 rest =>
          rw [Bool.and_eq_true] at hspec
          obtain ⟨hdig, hspec⟩ := hspec
          split at hspec
          case h_2 => simp at hspec
          case h_1 tail hdw =>
            rw [Bool.and_eq_true] at hspec
            obtain ⟨hbody, hnil⟩ := hspec
            rw [decide_eq_true_eq] at hnil
            rw [decide_eq_true_eq] at hbody
            subst hcs
            have hrest : rest.takeWhile Char.isDigit ++ '/' :: tail = rest := by
              have := List.takeWhile_append_dropWhile Char.isDigit rest
              rw [hdw] at this
              exact this
            have htail : tail.takeWhile isDOIBodyChar = tail := by
              have := List.takeWhile_append_dropWhile isDOIBodyChar tail
              rw [hnil, List.append_nil] at this
              exact this
            have hdall : ∀ c ∈ rest.takeWhile Char.isDigit,
                Char.isDigit c = true :=
              fun c hc => List.mem_takeWhile_imp hc
            have hball : ∀ c ∈ tail, isDOIBodyChar c = true := by
              intro c hc
              rw [← htail] at hc
              exact List.mem_takeWhile_imp hc
            have hrw : rest ++ ['\n'] = rest.takeWhile Char.isDigit ++
                '/' :: (tail ++ ['\n']) := by
              conv_lhs => rw [← hrest]
              simp
            obtain ⟨htk1, hdr1⟩ := @takeWhile_dropWhile_append
              Char.isDigit (rest.takeWhile Char.isDigit) ('/' :: (tail ++ ['\n']))
              hdall (fun b t hbt => by cases hbt; decide)
            obtain ⟨htk2, hdr2⟩ := @takeWhile_dropWhile_append
              isDOIBodyChar tail ['\n']
              hball (fun b t hbt => by cases hbt; decide)
            have htkA : (rest ++ ['\n']).takeWhile Char.isDigit =
                rest.takeWhile Char.isDigit := by rw [hrw]; exact htk1
            have hdrA : (rest ++ ['\n']).dropWhile Char.isDigit =
                '/' :: (tail ++ ['\n']) := by rw [hrw]; exact hdr1
            have hlen : 1 ≤ tail.length := by
              calc 1 ≤ (tail.takeWhile isDOIBodyChar).length := hbody
                _ = tail.length := by rw [htail]
            simp only [doiPatternMatch, List.cons_append, htkA, hdrA,
              htk2, hdr2]
            simp [hdig, hlen]

/-- Claim C5 counterexample: `validate_doi` accepts a DOI followed by one
trailing newline — Python's `$` matches just before a final newline — so
it is not equivalent to the spec grammar `10\.\d{4,}/[-._;()/:\w]+` and
nothing else. -/
theorem claim_C5_counterexample :
    validate_doi "10.1234/abc\n" = true ∧
    specDoiGrammar ("10.1234/abc\n".toList) = false := ⟨by decide, by decide⟩

/-- Claim C5 (amended): `validate_doi doi` returns true if and only if
`doi` matches the grammar `10\.\d{4,}/[-._;()/:\w]+` exactly or that
grammar followed by a single trailing newline (Python `re` lets `$` match
just before a final newline); the empty string and every string lacking
the `10.` prefix return false, and validation is a pure function of the
string — no network call. -/
theorem claim_C5_amended :
    (∀ s : String, validate_doi s = true ↔
      (specDoiGrammar s.toList = true ∨
       ∃ ds, s.toList = ds ++ ['\n'] ∧ specDoiGrammar ds = true)) ∧
    (∀ s : String, validate_doi s = true →
      s.toList.take 3 = ['1', '0', '.']) := by
  constructor
  · intro s
    rw [validate_doi_eq]
    exact doiPatternMatch_iff s.toList
  · intro s hv
    rw [validate_doi_eq] at hv
    unfold doiPatternMatch at hv
    split at hv
    case h_2 => simp at hv
    case h_1 rest heq => rw [heq]; rfl

/-- Witness for claim C5 (amended) at concrete strings. -/
theorem claim_C5_amended_witness :
    validate_doi "10.1234/abc" = true ∧
    "10.1234/abc".toList.take 3 = ['1', '0', '.'] :=
  ⟨(claim_C5_amended.1 "10.1234/abc").mpr (Or.inl (by decide)),
   claim_C5_amended.2 "10.1234/abc" (by decide)⟩

end Translators
